import Mathlib

/-!
Verification of the tiered web-execution layer: a shallow embedding of the
escalation decision engine (`EnvironmentAnalyzer`, `HttpExecutor`,
`EscalationHandler` from `src/part1-http-execution/index.js`) and of the
monitoring/alerting pipeline (`EnvironmentMonitor.detectChanges`,
`AlertingSystem` from the monitoring module), together with proofs of the
behavioural properties stated in the specification.

Conventions of the embedding:
* JS strings are Lean `String`s; `String.prototype.includes` becomes
  `strContains`, `toLowerCase` becomes `jsToLower` (ASCII case mapping,
  which covers every pattern the code matches against).
* JS numbers that the code only ever adds and compares are `ℚ`
  (confidence scores) or `Nat` (timestamps in ms, counts).
* `x || default` on JS falsy values is made explicit (`jsOrNat`,
  `jsOrStr`), since `0` and `""` pick the default in JS.
* async/await and event emission are irrelevant to the properties and are
  dropped; loops become fuel-indexed recursion where the fuel is chosen
  strictly larger than the bound the loop guard enforces, so the fuel
  never runs out and the guard alone decides termination.
-/

namespace WebExec

/-- JS `String.prototype.toLowerCase`, modelled with ASCII case mapping. -/
def jsToLower (s : String) : String := String.mk (s.toList.map Char.toLower)

/-- Does `pat` occur as a prefix of the character list `l`? -/
def listHasPrefix : List Char → List Char → Bool
  | [], _ => true
  | _ :: _, [] => false
  | p :: ps, c :: cs => p == c && listHasPrefix ps cs

/-- Does `pat` occur as a contiguous substring of `hay`?  (JS `includes`.) -/
def hasSubstr : List Char → List Char → Bool
  | [], pat => pat.isEmpty
  | c :: rest, pat => listHasPrefix pat (c :: rest) || hasSubstr rest pat

/-- JS `s.includes(pat)`. -/
def strContains (s pat : String) : Bool := hasSubstr s.toList pat.toList

/-- Fuel-indexed worker for `stripTags`; the fuel starts at the length of
the list and each step consumes at least one character, so the `0, l`
branch is never reached from `stripTags`. -/
def stripTagsAux : Nat → List Char → List Char
  | 0, l => l
  | _ + 1, [] => []
  | fuel + 1, c :: rest =>
    if c = '<' then
      match rest.dropWhile (fun x => x ≠ '>') with
      | [] => c :: stripTagsAux fuel rest
      | _ :: after => stripTagsAux fuel after
    else c :: stripTagsAux fuel rest

/-- JS `html.replace(/<[^>]*>/g, '')`: drop every maximal `<...>` group
(a `<` with no later `>` is not matched by the regex and is kept). -/
def stripTags (l : List Char) : List Char := stripTagsAux l.length l

/-- JS `String.prototype.trim` on a character list. -/
def trimChars (l : List Char) : List Char :=
  ((l.dropWhile Char.isWhitespace).reverse.dropWhile Char.isWhitespace).reverse

/-- JS `x || d` for an optional numeric config value (`0` is falsy). -/
def jsOrNat (o : Option Nat) (d : Nat) : Nat :=
  match o with
  | some v => if v = 0 then d else v
  | none => d

/-- JS `x || d` for an optional string config value (`""` is falsy). -/
def jsOrStr (o : Option String) (d : String) : String :=
  match o with
  | some v => if v = "" then d else v
  | none => d

/-! ## Environment Analyzer (`EnvironmentAnalyzer`) -/

/-- `EnvironmentAnalyzer` signal record. -/
structure Signals where
  requiresJavaScript : Bool
  hasAntiBot : Bool
  hasDynamicContent : Bool
  confidence : ℚ
deriving DecidableEq

/-- `this.jsFrameworkPatterns`. -/
def jsFrameworkPatterns : List String :=
  ["react", "vue", "angular", "svelte", "next.js", "nuxt",
   "__NEXT_DATA__", "__NUXT__", "ng-app", "data-reactroot"]

/-- `this.antiBotPatterns`. -/
def antiBotPatterns : List String :=
  ["cloudflare", "incapsula", "perimeterx", "datadome",
   "kasada", "akamai", "cf-browser-verification",
   "challenge-platform", "_cf_chl"]

/-- `this.dynamicContentPatterns`. -/
def dynamicContentPatterns : List String :=
  ["infinite-scroll", "load-more", "lazy-load",
   "data-src", "data-lazy", "intersection-observer"]

/-- The for-loop-with-break over a pattern set: fires iff some pattern
(lower-cased) occurs in the lower-cased html. -/
def anyPatternHit (lowerHtml : String) (pats : List String) : Bool :=
  pats.any (fun p => strContains lowerHtml (jsToLower p))

/-- Axios response headers, as a name/value association list.
`headerTruthy hs k` models JS truthiness of `headers[k]`. -/
def headerTruthy (headers : List (String × String)) (k : String) : Bool :=
  match headers.lookup k with
  | some v => v != ""
  | none => false

/-- JSON string escaping of quote and backslash (other escapes do not
occur in header values). -/
def jsonEscape (s : String) : String :=
  String.mk (s.toList.foldr (fun c acc =>
    if c = '\\' then '\\' :: '\\' :: acc
    else if c = '"' then '\\' :: '"' :: acc
    else c :: acc) [])

/-- `JSON.stringify(headers)` for a flat string-valued header object. -/
def jsonStringifyHeaders (headers : List (String × String)) : String :=
  "\x7b" ++ String.intercalate ","
    (headers.map (fun kv => "\"" ++ jsonEscape kv.1 ++ "\":\"" ++ jsonEscape kv.2 ++ "\"")) ++ "\x7d"

/-- First header heuristic: `headers['cf-ray'] || headers['cf-cache-status']`. -/
def cfHeaderHit (headers : List (String × String)) : Bool :=
  headerTruthy headers "cf-ray" || headerTruthy headers "cf-cache-status"

/-- Second header heuristic: the serialized headers contain a protection
service name. -/
def protHeaderStringHit (headers : List (String × String)) : Bool :=
  let hs := jsToLower (jsonStringifyHeaders headers)
  strContains hs "incapsula" || strContains hs "perimeterx" || strContains hs "datadome"

/-- `EnvironmentAnalyzer.analyzeHeaders`. -/
def analyzeHeaders (headers : List (String × String)) (s : Signals) : Signals :=
  let s1 := if cfHeaderHit headers then
    { s with hasAntiBot := true, confidence := s.confidence + 0.2 } else s
  if protHeaderStringHit headers then
    { s1 with hasAntiBot := true, confidence := s1.confidence + 0.3 } else s1

/-- Body heuristic: some JS-framework pattern occurs. -/
def jsFrameworkHit (html : String) : Bool :=
  anyPatternHit (jsToLower html) jsFrameworkPatterns

/-- Body heuristic: some anti-bot pattern occurs. -/
def antiBotHit (html : String) : Bool :=
  anyPatternHit (jsToLower html) antiBotPatterns

/-- Body heuristic: some dynamic-content pattern occurs. -/
def dynamicContentHit (html : String) : Bool :=
  anyPatternHit (jsToLower html) dynamicContentPatterns

/-- Body heuristic: short response whose tag-stripped text is near empty. -/
def minimalContentHit (html : String) : Bool :=
  html.length < 5000 && (trimChars (stripTags html.toList)).length < 500

/-- `EnvironmentAnalyzer.analyzeContent`. -/
def analyzeContent (html : String) (s : Signals) : Signals :=
  let s1 := if jsFrameworkHit html then
    { s with requiresJavaScript := true, confidence := s.confidence + 0.15 } else s
  let s2 := if antiBotHit html then
    { s1 with hasAntiBot := true, confidence := s1.confidence + 0.2 } else s1
  let s3 := if dynamicContentHit html then
    { s2 with hasDynamicContent := true, confidence := s2.confidence + 0.1 } else s2
  if minimalContentHit html then
    { s3 with requiresJavaScript := true, confidence := s3.confidence + 0.3 } else s3

/-- `EnvironmentAnalyzer.calculateComplexity`. -/
def calculateComplexity (s : Signals) : String :=
  if s.hasAntiBot then "high"
  else if s.requiresJavaScript || s.hasDynamicContent then "medium"
  else "low"

/-- `EnvironmentAnalyzer.getRecommendedExecution`. -/
def getRecommendedExecution (complexity : String) (s : Signals) : String :=
  if complexity = "high" then "browser-advanced"
  else if complexity = "medium" then
    (if s.hasAntiBot then "browser-advanced" else "browser-light")
  else "http"

/-- The analysis record returned by `EnvironmentAnalyzer.analyze` on a
fetched response (url/duration/details dropped; `dataStr = none` models a
non-string `response.data`). -/
structure AnalysisOutcome where
  complexity : String
  recommendedExecution : String
  confidence : ℚ
  signals : Signals
deriving DecidableEq

/-- Success path of `EnvironmentAnalyzer.analyze`: header scan, then body
scan when the payload is a string, then the tier decision and the
`Math.min(confidence, 1)` clamp. -/
def analyzeResponse (headers : List (String × String)) (dataStr : Option String) :
    AnalysisOutcome :=
  let s0 : Signals := ⟨false, false, false, 0⟩
  let s1 := analyzeHeaders headers s0
  let s2 := match dataStr with
    | some html => analyzeContent html s1
    | none => s1
  let complexity := calculateComplexity s2
  { complexity := complexity,
    recommendedExecution := getRecommendedExecution complexity s2,
    confidence := min s2.confidence 1,
    signals := s2 }

/-- Spec-side quantity for the analyzer claim: the sum of the fixed
confidence increments of exactly the heuristics that fire. -/
def triggeredIncrementSum (headers : List (String × String)) (dataStr : Option String) : ℚ :=
  (if cfHeaderHit headers then (0.2 : ℚ) else 0) +
  (if protHeaderStringHit headers then (0.3 : ℚ) else 0) +
  (match dataStr with
   | some html =>
     (if jsFrameworkHit html then (0.15 : ℚ) else 0) +
     (if antiBotHit html then (0.2 : ℚ) else 0) +
     (if dynamicContentHit html then (0.1 : ℚ) else 0) +
     (if minimalContentHit html then (0.3 : ℚ) else 0)
   | none => 0)

/-- A protection-service token occurs in the body or the headers. -/
def protectionTokenPresent (headers : List (String × String)) (dataStr : Option String) : Bool :=
  cfHeaderHit headers || protHeaderStringHit headers ||
  (match dataStr with | some html => antiBotHit html | none => false)

/-- Closed form of the header scan started from the zeroed signal record. -/
theorem analyzeHeaders_start (headers : List (String × String)) :
    analyzeHeaders headers ⟨false, false, false, 0⟩ =
      ⟨false, cfHeaderHit headers || protHeaderStringHit headers, false,
        (if cfHeaderHit headers then (0.2 : ℚ) else 0) +
        (if protHeaderStringHit headers then (0.3 : ℚ) else 0)⟩ := by
  by_cases hcf : cfHeaderHit headers <;>
    by_cases hp : protHeaderStringHit headers <;>
      simp [analyzeHeaders, hcf, hp]

/-- Closed form of the body scan on an arbitrary incoming signal record. -/
theorem analyzeContent_eq (html : String) (s : Signals) :
    analyzeContent html s =
      ⟨s.requiresJavaScript || jsFrameworkHit html || minimalContentHit html,
       s.hasAntiBot || antiBotHit html,
       s.hasDynamicContent || dynamicContentHit html,
       s.confidence +
         ((if jsFrameworkHit html then (0.15 : ℚ) else 0) +
          (if antiBotHit html then (0.2 : ℚ) else 0) +
          (if dynamicContentHit html then (0.1 : ℚ) else 0) +
          (if minimalContentHit html then (0.3 : ℚ) else 0))⟩ := by
  by_cases hj : jsFrameworkHit html <;>
    by_cases ha : antiBotHit html <;>
      by_cases hd : dynamicContentHit html <;>
        by_cases hm : minimalContentHit html <;>
          simp [analyzeContent, hj, ha, hd, hm, Signals.mk.injEq] <;> ring

/-- C4 counterexample: a response that fires every heuristic (cf header,
protection name in headers, framework + anti-bot + dynamic pattern in a
short body) accumulates `1.25`, but the returned confidence is clamped to
`1`, strictly below the sum of the triggered increments; so the claim's
`confidence ≥ sum` fails even though the top tier is recommended. -/
theorem analyzer_confidence_clamp_counterexample :
    protectionTokenPresent [("cf-ray", "x"), ("x-cdn", "incapsula")]
      (some "react cloudflare lazy-load") = true ∧
    (analyzeResponse [("cf-ray", "x"), ("x-cdn", "incapsula")]
      (some "react cloudflare lazy-load")).recommendedExecution = "browser-advanced" ∧
    (analyzeResponse [("cf-ray", "x"), ("x-cdn", "incapsula")]
      (some "react cloudflare lazy-load")).confidence <
      triggeredIncrementSum [("cf-ray", "x"), ("x-cdn", "incapsula")]
        (some "react cloudflare lazy-load") := by
  have h1 : cfHeaderHit [("cf-ray", "x"), ("x-cdn", "incapsula")] = true := by decide
  have h2 : protHeaderStringHit [("cf-ray", "x"), ("x-cdn", "incapsula")] = true := by decide
  have h3 : jsFrameworkHit "react cloudflare lazy-load" = true := by decide
  have h4 : antiBotHit "react cloudflare lazy-load" = true := by decide
  have h5 : dynamicContentHit "react cloudflare lazy-load" = true := by decide
  have h6 : minimalContentHit "react cloudflare lazy-load" = true := by decide
  refine ⟨by decide, ?_, ?_⟩
  · simp [analyzeResponse, analyzeHeaders_start, analyzeContent_eq, calculateComplexity,
      getRecommendedExecution, h1, h2, h4]
  · simp only [analyzeResponse, analyzeHeaders_start, analyzeContent_eq, triggeredIncrementSum,
      h1, h2, h3, h4, h5, h6, if_true]
    rw [min_def]
    norm_num

/-- C4 (amended): whenever a protection-service token occurs in the body
or headers, the analyzer recommends the highest tier, and the returned
confidence equals the sum of the increments of the triggered heuristics
clamped to `1` (hence is `≥` that sum whenever the sum does not exceed 1). -/
theorem analyzer_protection_top_tier (headers : List (String × String)) (dataStr : Option String)
    (h : protectionTokenPresent headers dataStr = true) :
    (analyzeResponse headers dataStr).recommendedExecution = "browser-advanced" ∧
    (analyzeResponse headers dataStr).confidence = min (triggeredIncrementSum headers dataStr) 1 := by
  cases dataStr with
  | none =>
    have hab : (cfHeaderHit headers || protHeaderStringHit headers) = true := by
      simp only [protectionTokenPresent] at h
      simpa using h
    constructor
    · simp [analyzeResponse, analyzeHeaders_start, calculateComplexity,
        getRecommendedExecution, hab]
    · simp only [analyzeResponse, analyzeHeaders_start, triggeredIncrementSum]
      norm_num
  | some html =>
    have hab : ((cfHeaderHit headers || protHeaderStringHit headers) || antiBotHit html) = true := by
      simp only [protectionTokenPresent] at h
      rw [Bool.or_assoc]
      simpa [or_assoc] using h
    constructor
    · simp [analyzeResponse, analyzeHeaders_start, analyzeContent_eq, calculateComplexity,
        getRecommendedExecution, hab]
    · have hconf :
        (analyzeContent html (analyzeHeaders headers ⟨false, false, false, 0⟩)).confidence =
          triggeredIncrementSum headers (some html) := by
        simp only [analyzeHeaders_start, analyzeContent_eq, triggeredIncrementSum]
      simp only [analyzeResponse]
      rw [hconf]

/-- C4 witness: the amended theorem applied to a concrete response with a
single protection token (`datadome` in the body). -/
theorem analyzer_protection_top_tier_witness :
    protectionTokenPresent [] (some "<html>datadome check</html>") = true ∧
    ((analyzeResponse [] (some "<html>datadome check</html>")).recommendedExecution =
        "browser-advanced" ∧
      (analyzeResponse [] (some "<html>datadome check</html>")).confidence =
        min (triggeredIncrementSum [] (some "<html>datadome check</html>")) 1) :=
  ⟨by decide, analyzer_protection_top_tier [] (some "<html>datadome check</html>") (by decide)⟩

/-! ## HTTP Executor (`HttpExecutor`) -/

/-- The part of an axios response the executor inspects.  `dataStr = none`
models a non-string `response.data` (for which the escalation check uses
`''` as the body). -/
structure JsResponse where
  status : Nat
  dataStr : Option String
deriving DecidableEq

/-- The execution-result record fields the escalation machinery reads
(url, headers, timing, cost are carried along in JS but never branched on). -/
structure ExecResult where
  success : Bool
  statusCode : Nat
  body : String
  retryCount : Nat
  escalationNeeded : Bool
  escalationReason : Option String
  error : Option String
deriving DecidableEq

/-- `HttpExecutor.checkForEscalationSignals`: `(needed, reason)`. -/
def checkForEscalationSignals (resp : JsResponse) : Bool × Option String :=
  let body := resp.dataStr.getD ""
  if strContains body "Please enable JavaScript" ||
      strContains body "JavaScript is required" then
    (true, some "JavaScript required")
  else if (resp.status == 403 || resp.status == 503) &&
      (strContains body "challenge" || strContains body "captcha") then
    (true, some "Challenge not resolved")
  else if body.length < 1000 && (trimChars (stripTags body.toList)).length < 100 then
    (true, some "Minimal content - likely SPA")
  else (false, none)

/-- The result `HttpExecutor.executeRequest` builds from a response, given
the retry count accumulated so far.  (For a non-string payload the JS body
is `JSON.stringify(response.data)`; it is modelled as `""` here — no claim
inspects the body of a successful result, only the escalation fields.) -/
def executeRequestResult (resp : JsResponse) (retryCount : Nat) : ExecResult :=
  let check := checkForEscalationSignals resp
  { success := true, statusCode := resp.status, body := resp.dataStr.getD "",
    retryCount := retryCount, escalationNeeded := check.1,
    escalationReason := check.2, error := none }

/-- `HttpExecutor.shouldEscalate`: blocking/challenge error classifier. -/
def shouldEscalate (msg : String) : Bool :=
  let m := jsToLower msg
  strContains m "403" || strContains m "forbidden" ||
    strContains m "blocked" || strContains m "challenge"

/-- `HttpExecutor.buildEscalationResult`. -/
def buildEscalationResult (retryCount : Nat) (errMsg : String) : ExecResult :=
  { success := false, statusCode := 0, body := "", retryCount := retryCount,
    escalationNeeded := true,
    escalationReason := some ("Web Unlocker could not handle - " ++ errMsg),
    error := some errMsg }

/-- `HttpExecutor.buildFailureResult` — note `escalationNeeded := false`. -/
def buildFailureResult (retryCount : Nat) (errMsg : String) : ExecResult :=
  { success := false, statusCode := 0, body := "", retryCount := retryCount,
    escalationNeeded := false, escalationReason := none, error := some errMsg }

/-- The retry loop of `HttpExecutor.fetch`.  `attempts i` is the outcome of
the `i`-th request (a response, or a thrown error message).  The fuel is
`retries + 1 - attempt` at every call, so the `0` branch is unreachable
when started from `fetch`. -/
def fetchLoop (retries : Nat) (attempts : Nat → Except String JsResponse) :
    Nat → Nat → ExecResult
  | 0, attempt => buildFailureResult attempt "fuel exhausted"
  | fuel + 1, attempt =>
    match attempts attempt with
    | Except.ok resp => executeRequestResult resp attempt
    | Except.error e =>
      if attempt < retries then
        (if shouldEscalate e then buildEscalationResult (attempt + 1) e
         else fetchLoop retries attempts fuel (attempt + 1))
      else buildFailureResult (attempt + 1) e

/-- `HttpExecutor.fetch`: up to `retries + 1` attempts at the same tier. -/
def fetch (retries : Nat) (attempts : Nat → Except String JsResponse) : ExecResult :=
  fetchLoop retries attempts (retries + 1) 0

/-! ## Escalation Handler (`EscalationHandler`) -/

/-- The hard-coded `this.config.levels` of `EscalationHandler`. -/
def defaultLevels : List String := ["http", "browser-light", "browser-advanced"]

/-- An entry pushed onto `this.escalationHistory` — the code stores the
url, the source tier, the reason and a timestamp (no destination tier). -/
structure HistEntry where
  url : String
  fromLevel : String
  reason : Option String
  timestamp : Nat
deriving DecidableEq

/-- What `executeWithEscalation` produces: a wrapped result, the implicit
`undefined` of falling off the function, or a rethrown error. -/
inductive RunOutcome where
  | finished (result : ExecResult) (executionLevel : String) (escalationCount : Nat)
  | undef
  | thrown (msg : String)
deriving DecidableEq

/-- JS `Array.prototype.indexOf` (`-1` when absent). -/
def jsIndexOfAux : List String → String → Nat → Int
  | [], _, _ => -1
  | x :: rest, t, i => if x == t then (i : Int) else jsIndexOfAux rest t (i + 1)

/-- JS `levels.indexOf(current)`. -/
def jsIndexOf (l : List String) (t : String) : Int := jsIndexOfAux l t 0

/-- `EscalationHandler.getNextLevel`. -/
def getNextLevel (levels : List String) (current : String) : Option String :=
  let idx := jsIndexOf levels current
  if idx < (levels.length : Int) - 1 then levels.get? (idx + 1).toNat else none

/-- The executors map: per level, either absent, or an executor whose call
returns a result or throws an error message.  (Within one run each level
is invoked at most once, so a pure per-level outcome is faithful.) -/
abbrev Executors := String → Option (Except String ExecResult)

/-- The `while (escalationCount < levels.length)` loop of
`executeWithEscalation`.  Returns the outcome, the history entries pushed
during the run, and the list of tiers actually executed (in order).  The
fuel is one more than the number of loop iterations the guard allows, so
the `0` branch is unreachable from `executeWithEscalation`. -/
def escLoop (levels : List String) (autoEscalate : Bool) (executors : Executors)
    (url : String) (now : Nat) :
    Nat → String → Nat → RunOutcome × List HistEntry × List String
  | 0, _, _ => (RunOutcome.undef, [], [])
  | fuel + 1, currentLevel, escalationCount =>
    if escalationCount < levels.length then
      match executors currentLevel with
      | none => (RunOutcome.undef, [], [])
      | some (Except.error e) =>
        match getNextLevel levels currentLevel with
        | some nl =>
          if autoEscalate then
            let r := escLoop levels autoEscalate executors url now fuel nl (escalationCount + 1)
            (r.1, r.2.1, currentLevel :: r.2.2)
          else (RunOutcome.thrown e, [], [currentLevel])
        | none => (RunOutcome.thrown e, [], [currentLevel])
      | some (Except.ok res) =>
        if res.escalationNeeded && autoEscalate then
          match getNextLevel levels currentLevel with
          | some nl =>
            let entry : HistEntry :=
              ⟨url, currentLevel, res.escalationReason, now⟩
            let r := escLoop levels autoEscalate executors url now fuel nl (escalationCount + 1)
            (r.1, entry :: r.2.1, currentLevel :: r.2.2)
          | none =>
            (RunOutcome.finished res currentLevel escalationCount, [], [currentLevel])
        else (RunOutcome.finished res currentLevel escalationCount, [], [currentLevel])
    else (RunOutcome.undef, [], [])

/-- `EscalationHandler.executeWithEscalation` (with the hard-coded level
list; `startLevel` is `options.startLevel || 'http'`). -/
def executeWithEscalation (autoEscalate : Bool) (executors : Executors)
    (url : String) (now : Nat) (startLevel : Option String) :
    RunOutcome × List HistEntry × List String :=
  escLoop defaultLevels autoEscalate executors url now (defaultLevels.length + 1)
    (jsOrStr startLevel "http") 0

/-! ## C8: error classification inside `HttpExecutor.fetch` -/

/-- If every attempt before `k` throws a non-blocking error, the retry
loop reaches attempt `k`; a blocking error there (with budget left)
returns the escalation result at once. -/
theorem fetchLoop_reach (retries : Nat) (attempts : Nat → Except String JsResponse) :
    ∀ fuel a k ek,
      (∀ i, a ≤ i → i < k → ∃ e, attempts i = Except.error e ∧ shouldEscalate e = false) →
      attempts k = Except.error ek → shouldEscalate ek = true →
      a ≤ k → k < retries → k - a < fuel →
      fetchLoop retries attempts fuel a = buildEscalationResult (k + 1) ek := by
  intro fuel
  induction fuel with
  | zero => intro a k ek _ _ _ _ _ hfa; omega
  | succ fuel ih =>
    intro a k ek hpre hk hesc hak hkr _
    by_cases hEq : a = k
    · subst hEq
      simp only [fetchLoop, hk]
      rw [if_pos hkr, if_pos hesc]
    · have halt : a < k := lt_of_le_of_ne hak hEq
      obtain ⟨e, he, hne⟩ := hpre a le_rfl halt
      simp only [fetchLoop, he]
      rw [if_pos (by omega : a < retries), if_neg (by simp [hne])]
      exact ih (a + 1) k ek (fun i h1 h2 => hpre i (by omega) h2) hk hesc (by omega) hkr (by omega)

/-- If every attempt throws a non-blocking error, the loop runs the whole
budget and ends in the failure result (which does not signal escalation). -/
theorem fetchLoop_allfail (retries : Nat) (attempts : Nat → Except String JsResponse) :
    ∀ fuel a,
      (∀ i, a ≤ i → i ≤ retries → ∃ e, attempts i = Except.error e ∧ shouldEscalate e = false) →
      a ≤ retries → retries - a < fuel →
      ∃ e, attempts retries = Except.error e ∧
        fetchLoop retries attempts fuel a = buildFailureResult (retries + 1) e := by
  intro fuel
  induction fuel with
  | zero => intro a _ _ hfa; omega
  | succ fuel ih =>
    intro a hpre har _
    by_cases hEq : a = retries
    · subst hEq
      obtain ⟨e, he, _⟩ := hpre a le_rfl le_rfl
      refine ⟨e, he, ?_⟩
      simp only [fetchLoop, he]
      rw [if_neg (by omega : ¬ a < a)]
    · have halt : a < retries := lt_of_le_of_ne har hEq
      obtain ⟨e, he, hne⟩ := hpre a le_rfl har
      obtain ⟨e', he', hres⟩ :=
        ih (a + 1) (fun i h1 h2 => hpre i (by omega) h2) (by omega) (by omega)
      refine ⟨e', he', ?_⟩
      simp only [fetchLoop, he]
      rw [if_pos halt, if_neg (by simp [hne])]
      exact hres

/-- C8 counterexample: with the default budget (`retries = 3`), four
consecutive non-blocking errors (`"timeout"` matches none of the four
substrings) exhaust the budget, and `fetch` returns the failure result
with `escalationNeeded = false` — the exhausted-budget result does NOT
signal escalation, contrary to the claim. -/
theorem fetch_exhausted_no_escalation_counterexample :
    shouldEscalate "timeout" = false ∧
    fetch 3 (fun _ => Except.error "timeout") = buildFailureResult 4 "timeout" ∧
    (fetch 3 (fun _ => Except.error "timeout")).escalationNeeded = false := by
  refine ⟨by decide, by decide, by decide⟩

/-- C8 (amended): a blocking error (message containing '403', 'forbidden',
'blocked' or 'challenge') thrown at an attempt that still has retry budget
left makes `fetch` return at once with `escalationNeeded = true`,
bypassing the remaining same-tier retries; a non-blocking error is retried
at the same tier until the budget is exhausted, after which `fetch`
returns the failure result with `escalationNeeded = false` (the returned
result does not signal escalation). -/
theorem fetch_error_classification (retries : Nat)
    (attempts : Nat → Except String JsResponse) :
    (∀ k ek,
      (∀ i, i < k → ∃ e, attempts i = Except.error e ∧ shouldEscalate e = false) →
      attempts k = Except.error ek → shouldEscalate ek = true → k < retries →
      fetch retries attempts = buildEscalationResult (k + 1) ek ∧
        (fetch retries attempts).escalationNeeded = true) ∧
    ((∀ i, i ≤ retries → ∃ e, attempts i = Except.error e ∧ shouldEscalate e = false) →
      ∃ e, attempts retries = Except.error e ∧
        fetch retries attempts = buildFailureResult (retries + 1) e ∧
        (fetch retries attempts).escalationNeeded = false) := by
  constructor
  · intro k ek hpre hk hesc hkr
    have h := fetchLoop_reach retries attempts (retries + 1) 0 k ek
      (fun i _ h2 => hpre i h2) hk hesc (Nat.zero_le _) hkr (by omega)
    exact ⟨h, by rw [fetch, h]; rfl⟩
  · intro hall
    obtain ⟨e, he, hres⟩ := fetchLoop_allfail retries attempts (retries + 1) 0
      (fun i _ h2 => hall i h2) (Nat.zero_le _) (by omega)
    exact ⟨e, he, hres, by rw [fetch, hres]; rfl⟩

/-- C8 witness: both halves of the amended theorem at concrete attempt
sequences — a blocking `"403 blocked"` error on the second attempt, and an
all-`"timeout"` sequence. -/
theorem fetch_error_classification_witness :
    (fetch 3 (fun i => if i = 0 then Except.error "timeout" else Except.error "403 blocked") =
        buildEscalationResult 2 "403 blocked" ∧
      (fetch 3 (fun i => if i = 0 then Except.error "timeout" else Except.error "403 blocked")).escalationNeeded = true) ∧
    (∃ e, (fun (_ : Nat) => Except.error (ε := String) (α := JsResponse) "timeout") 3 = Except.error e ∧
      fetch 3 (fun _ => Except.error "timeout") = buildFailureResult 4 e ∧
      (fetch 3 (fun _ => Except.error "timeout")).escalationNeeded = false) := by
  constructor
  · exact (fetch_error_classification 3
      (fun i => if i = 0 then Except.error "timeout" else Except.error "403 blocked")).1 1 "403 blocked"
      (by intro i hi; interval_cases i; exact ⟨"timeout", rfl, by decide⟩)
      rfl (by decide) (by decide)
  · exact (fetch_error_classification 3 (fun _ => Except.error "timeout")).2
      (by intro i _; exact ⟨"timeout", rfl, by decide⟩)

/-! ## C1, C2, C10: runs of `executeWithEscalation` -/

/-- C2: if every configured level has an executor and every executor's
result signals escalation, the run (auto-escalation on, starting at the
lowest tier) executes exactly the three configured tiers in order and
returns the top tier's result as final, with `escalationCount = 2` — no
wraparound, no further attempts, and no thrown error. -/
theorem escalation_bounded_all_tiers (executors : Executors) (url : String) (now : Nat)
    (h : ∀ l ∈ defaultLevels, ∃ r, executors l = some (Except.ok r) ∧
      r.escalationNeeded = true) :
    (executeWithEscalation true executors url now (some "http")).2.2 =
      ["http", "browser-light", "browser-advanced"] ∧
    ∃ rTop, executors "browser-advanced" = some (Except.ok rTop) ∧
      (executeWithEscalation true executors url now (some "http")).1 =
        RunOutcome.finished rTop "browser-advanced" 2 := by
  obtain ⟨r1, h1, e1⟩ := h "http" (by simp [defaultLevels])
  obtain ⟨r2, h2, e2⟩ := h "browser-light" (by simp [defaultLevels])
  obtain ⟨r3, h3, e3⟩ := h "browser-advanced" (by simp [defaultLevels])
  have hrun : executeWithEscalation true executors url now (some "http") =
      (RunOutcome.finished r3 "browser-advanced" 2,
        [⟨url, "http", r1.escalationReason, now⟩,
         ⟨url, "browser-light", r2.escalationReason, now⟩],
        ["http", "browser-light", "browser-advanced"]) := by
    simp [executeWithEscalation, escLoop, jsOrStr, defaultLevels, getNextLevel, jsIndexOf,
      jsIndexOfAux, h1, h2, h3, e1, e2, e3]
  exact ⟨by rw [hrun], r3, h3, by rw [hrun]⟩

/-- A concrete executors map used by witnesses: every tier returns an
escalation-flagged result. -/
def escalateEverywhere : Executors :=
  fun _ => some (Except.ok ⟨false, 403, "", 0, true, some "Challenge not resolved", none⟩)

/-- C2 witness: a concrete executors map whose three results all signal
escalation; the run visits the three tiers and finishes at the top. -/
theorem escalation_bounded_all_tiers_witness :
    (∀ l ∈ defaultLevels, ∃ r, escalateEverywhere l = some (Except.ok r) ∧
      r.escalationNeeded = true) ∧
    ((executeWithEscalation true escalateEverywhere "https://example.com" 5 (some "http")).2.2 =
      ["http", "browser-light", "browser-advanced"] ∧
    ∃ rTop, escalateEverywhere "browser-advanced" = some (Except.ok rTop) ∧
      (executeWithEscalation true escalateEverywhere "https://example.com" 5 (some "http")).1 =
        RunOutcome.finished rTop "browser-advanced" 2) :=
  ⟨fun _ _ => ⟨⟨false, 403, "", 0, true, some "Challenge not resolved", none⟩, rfl, rfl⟩,
    escalation_bounded_all_tiers escalateEverywhere "https://example.com" 5
      (fun _ _ => ⟨⟨false, 403, "", 0, true, some "Challenge not resolved", none⟩, rfl, rfl⟩)⟩

/-- C1: an http-tier body containing "Please enable JavaScript" yields a
result flagged `escalationNeeded = true` with reason "JavaScript required"
(which contains "JavaScript"); feeding that result to the handler with
auto-escalation on retries at browser-light, and when that tier's result
is clean the final return carries `executionLevel = 'browser-light'` and
`escalationCount = 1`. -/
theorem e2e_javascript_escalation (resp : JsResponse) (r2 : ExecResult)
    (executors : Executors) (url : String) (now rc : Nat)
    (hbody : strContains (resp.dataStr.getD "") "Please enable JavaScript" = true)
    (hex1 : executors "http" = some (Except.ok (executeRequestResult resp rc)))
    (hex2 : executors "browser-light" = some (Except.ok r2))
    (hr2 : r2.escalationNeeded = false) :
    (executeRequestResult resp rc).escalationNeeded = true ∧
    (executeRequestResult resp rc).escalationReason = some "JavaScript required" ∧
    strContains "JavaScript required" "JavaScript" = true ∧
    executeWithEscalation true executors url now (some "http") =
      (RunOutcome.finished r2 "browser-light" 1,
        [⟨url, "http", some "JavaScript required", now⟩],
        ["http", "browser-light"]) := by
  have hcheck : checkForEscalationSignals resp = (true, some "JavaScript required") := by
    simp [checkForEscalationSignals, hbody]
  have hres1 : (executeRequestResult resp rc).escalationNeeded = true := by
    simp [executeRequestResult, hcheck]
  have hreason : (executeRequestResult resp rc).escalationReason = some "JavaScript required" := by
    simp [executeRequestResult, hcheck]
  refine ⟨hres1, hreason, by decide, ?_⟩
  simp [executeWithEscalation, escLoop, jsOrStr, defaultLevels, getNextLevel, jsIndexOf,
    jsIndexOfAux, hex1, hex2, hres1, hreason, hr2]

/-- C1 witness: the end-to-end theorem at a concrete response and clean
browser-light result. -/
theorem e2e_javascript_escalation_witness :
    strContains (((⟨200, some "<html>Please enable JavaScript</html>"⟩ :
        JsResponse)).dataStr.getD "") "Please enable JavaScript" = true ∧
    executeWithEscalation true
      (fun l => if l = "http" then
          some (Except.ok (executeRequestResult ⟨200, some "<html>Please enable JavaScript</html>"⟩ 0))
        else if l = "browser-light" then
          some (Except.ok ⟨true, 200, "<html>full content</html>", 0, false, none, none⟩)
        else none)
      "https://example.com" 9 (some "http") =
      (RunOutcome.finished ⟨true, 200, "<html>full content</html>", 0, false, none, none⟩
        "browser-light" 1,
        [⟨"https://example.com", "http", some "JavaScript required", 9⟩],
        ["http", "browser-light"]) := by
  refine ⟨by decide, ?_⟩
  exact (e2e_javascript_escalation ⟨200, some "<html>Please enable JavaScript</html>"⟩
    ⟨true, 200, "<html>full content</html>", 0, false, none, none⟩ _ "https://example.com" 9 0
    (by decide) rfl rfl rfl).2.2.2

/-- C10: when the executors map has no executor for the start level, the
run ends with the implicit `undefined` — no result object, no thrown
error, empty history, no attempt executed. -/
theorem missing_executor_returns_undefined (autoEscalate : Bool) (executors : Executors)
    (url : String) (now : Nat) (startLevel : Option String)
    (h : executors (jsOrStr startLevel "http") = none) :
    executeWithEscalation autoEscalate executors url now startLevel =
      (RunOutcome.undef, [], []) := by
  simp [executeWithEscalation, escLoop, defaultLevels, h]

/-- C10 witness: an executors map with no entries at all. -/
theorem missing_executor_returns_undefined_witness :
    (fun (_ : String) => (none : Option (Except String ExecResult)))
        (jsOrStr (some "http") "http") = none ∧
    executeWithEscalation true (fun _ => none) "https://example.com" 0 (some "http") =
      (RunOutcome.undef, [], []) :=
  ⟨rfl, missing_executor_returns_undefined true (fun _ => none)
    "https://example.com" 0 (some "http") rfl⟩

/-! ## C3: tier sequence of a run is monotone -/

/-- On the configured level list, `getNextLevel` only ever moves to a
configured level with a strictly larger index. -/
theorem getNextLevel_mem_lt (cur nl : String) (hcur : cur ∈ defaultLevels)
    (h : getNextLevel defaultLevels cur = some nl) :
    nl ∈ defaultLevels ∧ jsIndexOf defaultLevels cur < jsIndexOf defaultLevels nl := by
  fin_cases hcur
  · have hv : getNextLevel defaultLevels "http" = some "browser-light" := by decide
    rw [hv, Option.some.injEq] at h
    subst h
    exact ⟨by decide, by decide⟩
  · have hv : getNextLevel defaultLevels "browser-light" = some "browser-advanced" := by decide
    rw [hv, Option.some.injEq] at h
    subst h
    exact ⟨by decide, by decide⟩
  · have hv : getNextLevel defaultLevels "browser-advanced" = none := by decide
    rw [hv] at h
    exact absurd h (by simp)

/-- Trace invariant of the escalation loop: starting from a configured
level, every executed tier is configured and at an index at least the
start's, the executed-tier sequence is sorted by level index, and the
recorded `fromLevel` sequence is a sublist of the executed-tier sequence. -/
theorem escLoop_trace_mono (autoE : Bool) (executors : Executors) (url : String) (now : Nat) :
    ∀ fuel cur cnt, cur ∈ defaultLevels →
      (∀ a ∈ (escLoop defaultLevels autoE executors url now fuel cur cnt).2.2,
          a ∈ defaultLevels ∧ jsIndexOf defaultLevels cur ≤ jsIndexOf defaultLevels a) ∧
      (escLoop defaultLevels autoE executors url now fuel cur cnt).2.2.Pairwise
        (fun a b => jsIndexOf defaultLevels a ≤ jsIndexOf defaultLevels b) ∧
      ((escLoop defaultLevels autoE executors url now fuel cur cnt).2.1.map
          HistEntry.fromLevel).Sublist
        (escLoop defaultLevels autoE executors url now fuel cur cnt).2.2 := by
  intro fuel
  induction fuel with
  | zero => intro cur cnt hcur; simp [escLoop]
  | succ fuel ih =>
    intro cur cnt hcur
    by_cases hguard : cnt < defaultLevels.length
    · rcases hex : executors cur with _ | v
      · simp [escLoop, hguard, hex]
      · rcases v with e | r
        · rcases hnl : getNextLevel defaultLevels cur with _ | nl
          · simp [escLoop, hguard, hex, hnl, hcur]
          · obtain ⟨hnlmem, hnlt⟩ := getNextLevel_mem_lt cur nl hcur hnl
            obtain ⟨hall, hpw, hsub⟩ := ih nl (cnt + 1) hnlmem
            by_cases hauto : autoE
            · simp only [escLoop, if_pos hguard, hex, hnl, if_pos hauto]
              refine ⟨?_, ?_, ?_⟩
              · intro a ha
                rcases List.mem_cons.mp ha with h | h
                · subst h; exact ⟨hcur, le_refl _⟩
                · exact ⟨(hall a h).1, le_trans (le_of_lt hnlt) (hall a h).2⟩
              · exact List.pairwise_cons.mpr
                  ⟨fun a h => le_trans (le_of_lt hnlt) (hall a h).2, hpw⟩
              · exact hsub.trans (List.sublist_cons_self _ _)
            · simp [escLoop, hguard, hex, hnl, hauto, hcur]
        · by_cases hesc : (r.escalationNeeded && autoE) = true
          · rcases hnl : getNextLevel defaultLevels cur with _ | nl
            · simp [escLoop, hguard, hex, hnl, hesc, hcur]
            · obtain ⟨hnlmem, hnlt⟩ := getNextLevel_mem_lt cur nl hcur hnl
              obtain ⟨hall, hpw, hsub⟩ := ih nl (cnt + 1) hnlmem
              simp only [escLoop, if_pos hguard, hex, hnl, if_pos hesc, List.map_cons]
              refine ⟨?_, ?_, ?_⟩
              · intro a ha
                rcases List.mem_cons.mp ha with h | h
                · subst h; exact ⟨hcur, le_refl _⟩
                · exact ⟨(hall a h).1, le_trans (le_of_lt hnlt) (hall a h).2⟩
              · exact List.pairwise_cons.mpr
                  ⟨fun a h => le_trans (le_of_lt hnlt) (hall a h).2, hpw⟩
              · exact hsub.cons₂ _
          · simp [escLoop, hguard, hex, hesc, hcur]
    · simp [escLoop, hguard]

/-- C3: in a single run (started at a configured level) the sequence of
tiers at which execution is attempted is sorted by the configured level
order — the handler never moves back to an earlier tier — and hence the
`fromLevel` sequence recorded in the history of that run is sorted too. -/
theorem escalation_trace_monotone (autoE : Bool) (executors : Executors) (url : String)
    (now : Nat) (start : String) (hstart : start ∈ defaultLevels) :
    (executeWithEscalation autoE executors url now (some start)).2.2.Pairwise
      (fun a b => jsIndexOf defaultLevels a ≤ jsIndexOf defaultLevels b) ∧
    ((executeWithEscalation autoE executors url now (some start)).2.1.map
        HistEntry.fromLevel).Pairwise
      (fun a b => jsIndexOf defaultLevels a ≤ jsIndexOf defaultLevels b) := by
  have hne : start ≠ "" := by
    intro heq
    subst heq
    simp [defaultLevels] at hstart
  have hjs : jsOrStr (some start) "http" = start := by simp [jsOrStr, hne]
  obtain ⟨hall, hpw, hsub⟩ :=
    escLoop_trace_mono autoE executors url now (defaultLevels.length + 1) start 0 hstart
  rw [executeWithEscalation, hjs]
  exact ⟨hpw, hpw.sublist hsub⟩

/-- C3 witness: the monotonicity theorem at the all-escalating concrete
executors map started at `http`. -/
theorem escalation_trace_monotone_witness :
    "http" ∈ defaultLevels ∧
    ((executeWithEscalation true escalateEverywhere "https://example.com" 5 (some "http")).2.2.Pairwise
      (fun a b => jsIndexOf defaultLevels a ≤ jsIndexOf defaultLevels b) ∧
    ((executeWithEscalation true escalateEverywhere "https://example.com" 5 (some "http")).2.1.map
        HistEntry.fromLevel).Pairwise
      (fun a b => jsIndexOf defaultLevels a ≤ jsIndexOf defaultLevels b)) :=
  ⟨by decide, escalation_trace_monotone true escalateEverywhere "https://example.com" 5 "http"
    (by decide)⟩

/-! ## C9: what the escalation history records -/

/-- An executors map whose http tier returns a clean result. -/
def cleanHttpExecutors : Executors :=
  fun l => if l = "http" then some (Except.ok ⟨true, 200, "ok", 0, false, none, none⟩)
    else none

/-- C9 counterexample: a run whose single http attempt returns a clean
result executes one attempt but records nothing in `escalationHistory` —
so not every attempt is recorded (only escalation steps are). -/
theorem history_not_every_attempt_counterexample :
    (executeWithEscalation true cleanHttpExecutors "https://example.com" 3 (some "http")).2.2 =
      ["http"] ∧
    (executeWithEscalation true cleanHttpExecutors "https://example.com" 3 (some "http")).2.1 =
      [] := by
  refine ⟨by decide, by decide⟩

/-- History invariant of the escalation loop (auto-escalation on, every
configured level's executor returning normally): each recorded entry
carries the run's url and timestamp and the escalating result's reason,
and the number of entries accounts exactly for the escalation count of a
finished run. -/
theorem escLoop_hist_audit (executors : Executors) (url : String) (now : Nat) :
    ∀ fuel cur cnt, cur ∈ defaultLevels →
      (∀ l ∈ defaultLevels, ∃ r, executors l = some (Except.ok r)) →
      (∀ ent ∈ (escLoop defaultLevels true executors url now fuel cur cnt).2.1,
          ent.url = url ∧ ent.timestamp = now ∧
          ∃ r, executors ent.fromLevel = some (Except.ok r) ∧ r.escalationNeeded = true ∧
            ent.reason = r.escalationReason) ∧
      (∀ res lvl c, (escLoop defaultLevels true executors url now fuel cur cnt).1 =
          RunOutcome.finished res lvl c →
        (escLoop defaultLevels true executors url now fuel cur cnt).2.1.length + cnt = c) := by
  intro fuel
  induction fuel with
  | zero =>
    intro cur cnt _ _
    refine ⟨by simp [escLoop], ?_⟩
    intro res lvl c hout
    simp [escLoop] at hout
  | succ fuel ih =>
    intro cur cnt hcur hok
    by_cases hguard : cnt < defaultLevels.length
    · obtain ⟨r, hr⟩ := hok cur hcur
      by_cases hesc : r.escalationNeeded = true
      · rcases hnl : getNextLevel defaultLevels cur with _ | nl
        · refine ⟨by simp [escLoop, hguard, hr, hesc, hnl], ?_⟩
          intro res lvl c hout
          simp only [escLoop, if_pos hguard, hr, hesc, hnl, Bool.and_true, if_pos] at hout ⊢
          cases hout
          simp
        · obtain ⟨hnlmem, _⟩ := getNextLevel_mem_lt cur nl hcur hnl
          obtain ⟨ihent, ihlen⟩ := ih nl (cnt + 1) hnlmem hok
          refine ⟨?_, ?_⟩
          · intro ent hent
            simp only [escLoop, if_pos hguard, hr, hesc, hnl, Bool.and_true, if_pos,
              List.mem_cons] at hent
            rcases hent with h | h
            · subst h
              exact ⟨rfl, rfl, r, hr, hesc, rfl⟩
            · exact ihent ent h
          · intro res lvl c hout
            simp only [escLoop, if_pos hguard, hr, hesc, hnl, Bool.and_true, if_pos,
              List.length_cons] at hout ⊢
            have := ihlen res lvl c hout
            omega
      · have hesc' : r.escalationNeeded = false := by
          cases hb : r.escalationNeeded
          · rfl
          · exact absurd hb hesc
        refine ⟨by simp [escLoop, hguard, hr, hesc'], ?_⟩
        intro res lvl c hout
        simp only [escLoop, if_pos hguard, hr, hesc', Bool.false_and, Bool.false_eq_true,
          if_false] at hout ⊢
        cases hout
        simp
    · refine ⟨by simp [escLoop, hguard], ?_⟩
      intro res lvl c hout
      simp [escLoop, hguard] at hout

/-- C9 (amended): during a run (auto-escalation on, started at a
configured tier, every configured tier's executor returning normally),
exactly the escalation steps — not every attempt — are recorded: each
history entry carries the timestamp, the source tier (one of the attempted
tiers) and the escalating result's reason (the destination tier is not
stored in history; it is only part of the emitted escalation event), and
the number of entries equals the final `escalationCount`. -/
theorem escalation_history_audit (executors : Executors) (url : String) (now : Nat)
    (start : String) (hstart : start ∈ defaultLevels)
    (hok : ∀ l ∈ defaultLevels, ∃ r, executors l = some (Except.ok r)) :
    (∀ ent ∈ (executeWithEscalation true executors url now (some start)).2.1,
        ent.url = url ∧ ent.timestamp = now ∧
        ∃ r, executors ent.fromLevel = some (Except.ok r) ∧ r.escalationNeeded = true ∧
          ent.reason = r.escalationReason) ∧
    (((executeWithEscalation true executors url now (some start)).2.1.map
        HistEntry.fromLevel).Sublist
      (executeWithEscalation true executors url now (some start)).2.2) ∧
    (∀ res lvl c, (executeWithEscalation true executors url now (some start)).1 =
        RunOutcome.finished res lvl c →
      (executeWithEscalation true executors url now (some start)).2.1.length = c) := by
  have hne : start ≠ "" := by
    intro heq
    subst heq
    simp [defaultLevels] at hstart
  have hjs : jsOrStr (some start) "http" = start := by simp [jsOrStr, hne]
  obtain ⟨hent, hlen⟩ :=
    escLoop_hist_audit executors url now (defaultLevels.length + 1) start 0 hstart hok
  obtain ⟨_, _, hsub⟩ :=
    escLoop_trace_mono true executors url now (defaultLevels.length + 1) start 0 hstart
  rw [executeWithEscalation, hjs]
  exact ⟨hent, hsub, fun res lvl c hout => by simpa using hlen res lvl c hout⟩

/-- C9 witness: the audit theorem at the all-escalating executors map. -/
theorem escalation_history_audit_witness :
    ("http" ∈ defaultLevels ∧
      (∀ l ∈ defaultLevels, ∃ r, escalateEverywhere l = some (Except.ok r))) ∧
    ((∀ ent ∈ (executeWithEscalation true escalateEverywhere "https://example.com" 5
          (some "http")).2.1,
        ent.url = "https://example.com" ∧ ent.timestamp = 5 ∧
        ∃ r, escalateEverywhere ent.fromLevel = some (Except.ok r) ∧
          r.escalationNeeded = true ∧ ent.reason = r.escalationReason) ∧
    (((executeWithEscalation true escalateEverywhere "https://example.com" 5
          (some "http")).2.1.map HistEntry.fromLevel).Sublist
      (executeWithEscalation true escalateEverywhere "https://example.com" 5
          (some "http")).2.2) ∧
    (∀ res lvl c, (executeWithEscalation true escalateEverywhere "https://example.com" 5
          (some "http")).1 = RunOutcome.finished res lvl c →
      (executeWithEscalation true escalateEverywhere "https://example.com" 5
          (some "http")).2.1.length = c)) :=
  ⟨⟨by decide, fun _ _ =>
      ⟨⟨false, 403, "", 0, true, some "Challenge not resolved", none⟩, rfl⟩⟩,
    escalation_history_audit escalateEverywhere "https://example.com" 5 "http" (by decide)
      (fun _ _ => ⟨⟨false, 403, "", 0, true, some "Challenge not resolved", none⟩, rfl⟩)⟩

/-! ## Environment Monitor (`EnvironmentMonitor.detectChanges`) -/

/-- The fields of a health-check record that `detectChanges` compares. -/
structure CheckSnapshot where
  selectorMatches : List (String × Nat)
  responseTime : Nat
deriving DecidableEq

/-- A record pushed onto the change list by `detectChanges`. -/
structure ChangeRecord where
  url : String
  timestamp : Nat
  changeType : String
  severity : String
  description : String
  before : Nat
  after : Nat
deriving DecidableEq

/-- JS `baseline.selectorMatches[selector] || 0`. -/
def jsGetOr0 (m : List (String × Nat)) (k : String) : Nat := (m.lookup k).getD 0

/-- The description string of a structural change record. -/
def structDesc (s : String) : String := "Selector \"" ++ s ++ "\" no longer found"

/-- `EnvironmentMonitor.detectChanges`: given the baselines map, a target
url and the current check, produce the change records and the updated
baselines map (`Map.set` on a missing key appends the pair). -/
def detectChanges (baselines : List (String × CheckSnapshot)) (url : String)
    (current : CheckSnapshot) (now : Nat) :
    List ChangeRecord × List (String × CheckSnapshot) :=
  match baselines.lookup url with
  | none => ([], baselines ++ [(url, current)])
  | some baseline =>
    let structural := current.selectorMatches.filterMap (fun sc =>
      if sc.2 = 0 ∧ 0 < jsGetOr0 baseline.selectorMatches sc.1 then
        some (⟨url, now, "structure", "warning", structDesc sc.1,
          jsGetOr0 baseline.selectorMatches sc.1, sc.2⟩ : ChangeRecord)
      else none)
    let perf := if baseline.responseTime * 2 < current.responseTime then
        [(⟨url, now, "performance", "warning", "Response time doubled",
          baseline.responseTime, current.responseTime⟩ : ChangeRecord)]
      else []
    (structural ++ perf, baselines)

/-- The structural-record description determines the selector. -/
theorem structDesc_inj {a b : String} (h : structDesc a = structDesc b) : a = b := by
  have hd : ("Selector \"".data ++ a.data) ++ "\" no longer found".data =
      ("Selector \"".data ++ b.data) ++ "\" no longer found".data := by
    have := congrArg String.data h
    simpa [structDesc, String.data_append] using this
  have h1 := List.append_cancel_right hd
  have h2 := List.append_cancel_left h1
  cases a
  cases b
  exact congrArg String.mk h2

/-- A selector list that does not mention `s` contributes no structural
record for `s`. -/
theorem structural_countP_zero (b : CheckSnapshot) (url : String) (now : Nat) (s : String)
    (t : List (String × Nat)) (hs : s ∉ t.map Prod.fst) :
    (t.filterMap (fun sc =>
        if sc.2 = 0 ∧ 0 < jsGetOr0 b.selectorMatches sc.1 then
          some (⟨url, now, "structure", "warning", structDesc sc.1,
            jsGetOr0 b.selectorMatches sc.1, sc.2⟩ : ChangeRecord)
        else none)).countP
      (fun c => c.changeType == "structure" && c.description == structDesc s) = 0 := by
  rw [List.countP_eq_zero]
  intro c hc
  obtain ⟨sc, hmem, hf⟩ := List.mem_filterMap.mp hc
  by_cases hcond : sc.2 = 0 ∧ 0 < jsGetOr0 b.selectorMatches sc.1
  · rw [if_pos hcond, Option.some.injEq] at hf
    subst hf
    simp only [Bool.and_eq_true, beq_iff_eq, not_and]
    intro _ hdesc
    exact hs (structDesc_inj hdesc ▸ List.mem_map_of_mem Prod.fst hmem)
  · rw [if_neg hcond] at hf
    exact absurd hf (by simp)

/-- Per-selector count of structural records over a duplicate-free
selector-match list: one iff the selector is checked with count `0` now
and had a positive count in the baseline. -/
theorem structural_countP (b : CheckSnapshot) (url : String) (now : Nat) (s : String) :
    ∀ l : List (String × Nat), (l.map Prod.fst).Nodup →
      (l.filterMap (fun sc =>
          if sc.2 = 0 ∧ 0 < jsGetOr0 b.selectorMatches sc.1 then
            some (⟨url, now, "structure", "warning", structDesc sc.1,
              jsGetOr0 b.selectorMatches sc.1, sc.2⟩ : ChangeRecord)
          else none)).countP
        (fun c => c.changeType == "structure" && c.description == structDesc s) =
      (if l.lookup s = some 0 ∧ 0 < jsGetOr0 b.selectorMatches s then 1 else 0) := by
  intro l
  induction l with
  | nil => intro _; simp
  | cons kv t ih =>
    intro hnd
    obtain ⟨k, v⟩ := kv
    rw [List.map_cons, List.nodup_cons] at hnd
    obtain ⟨hk, ht⟩ := hnd
    by_cases hks : k = s
    · subst hks
      by_cases hcond : v = 0 ∧ 0 < jsGetOr0 b.selectorMatches k
      · simp only [List.filterMap_cons, if_pos hcond, List.countP_cons, List.lookup_cons_self,
          structural_countP_zero b url now k t hk]
        simp [hcond.1, hcond.2]
      · simp only [List.filterMap_cons, if_neg hcond,
          structural_countP_zero b url now k t hk, List.lookup_cons_self]
        have : ¬ (some v = some 0 ∧ 0 < jsGetOr0 b.selectorMatches k) := by
          simpa using hcond
        rw [if_neg this]
    · have hbeq : (s == k) = false := beq_eq_false_iff_ne.mpr (fun h => hks h.symm)
      have hlk : List.lookup s ((k, v) :: t) = List.lookup s t := by
        simp [List.lookup, hbeq]
      by_cases hcond : v = 0 ∧ 0 < jsGetOr0 b.selectorMatches k
      · simp only [List.filterMap_cons, if_pos hcond, List.countP_cons]
        have hpred : ((⟨url, now, "structure", "warning", structDesc k,
            jsGetOr0 b.selectorMatches k, v⟩ : ChangeRecord).changeType == "structure" &&
            (⟨url, now, "structure", "warning", structDesc k,
              jsGetOr0 b.selectorMatches k, v⟩ : ChangeRecord).description == structDesc s) =
            false := by
          simp only [Bool.and_eq_false_iff, beq_eq_false_iff_ne]
          right
          intro hdesc
          exact hks (structDesc_inj hdesc)
        rw [hpred, hlk]
        simp [ih ht]
      · simp only [List.filterMap_cons, if_neg hcond]
        rw [hlk]
        exact ih ht

/-- C6: with a stored baseline and duplicate-free selector keys, the run
of `detectChanges` emits exactly one structural record (severity
`warning`) for each selector checked with count `0` now whose baseline
count was positive, and none for a selector whose current count is
positive; every emitted record has severity `warning`. -/
theorem detect_changes_structural (baselines : List (String × CheckSnapshot)) (url : String)
    (current : CheckSnapshot) (now : Nat) (b : CheckSnapshot) (s : String)
    (hb : baselines.lookup url = some b)
    (hnd : (current.selectorMatches.map Prod.fst).Nodup) :
    ((detectChanges baselines url current now).1.countP
        (fun c => c.changeType == "structure" && c.description == structDesc s)) =
      (if current.selectorMatches.lookup s = some 0 ∧
          0 < jsGetOr0 b.selectorMatches s then 1 else 0) ∧
    (∀ c ∈ (detectChanges baselines url current now).1, c.severity = "warning") := by
  constructor
  · simp only [detectChanges, hb]
    rw [List.countP_append]
    have hperf : (if b.responseTime * 2 < current.responseTime then
        [(⟨url, now, "performance", "warning", "Response time doubled",
          b.responseTime, current.responseTime⟩ : ChangeRecord)] else []).countP
        (fun c => c.changeType == "structure" && c.description == structDesc s) = 0 := by
      split <;> simp
    rw [hperf, Nat.add_zero]
    exact structural_countP b url now s current.selectorMatches hnd
  · intro c hc
    simp only [detectChanges, hb, List.mem_append] at hc
    rcases hc with hc | hc
    · obtain ⟨sc, _, hf⟩ := List.mem_filterMap.mp hc
      by_cases hcond : sc.2 = 0 ∧ 0 < jsGetOr0 b.selectorMatches sc.1
      · rw [if_pos hcond, Option.some.injEq] at hf
        subst hf
        rfl
      · rw [if_neg hcond] at hf
        exact absurd hf (by simp)
    · by_cases hperf : b.responseTime * 2 < current.responseTime
      · rw [if_pos hperf] at hc
        simp only [List.mem_singleton] at hc
        subst hc
        rfl
      · rw [if_neg hperf] at hc
        exact absurd hc (by simp)

/-- C6 witness: baseline has `.price` at 3 and `.product` at 2; the new
check finds `.price` zero times and `.product` five times — exactly one
structural record, for `.price`. -/
theorem detect_changes_structural_witness :
    (([("https://shop.example", (⟨[(".price", 3), (".product", 2)], 100⟩ : CheckSnapshot))].lookup
        "https://shop.example" = some (⟨[(".price", 3), (".product", 2)], 100⟩ : CheckSnapshot)) ∧
      (((⟨[(".price", 0), (".product", 5)], 120⟩ : CheckSnapshot).selectorMatches.map
        Prod.fst).Nodup)) ∧
    (((detectChanges [("https://shop.example", ⟨[(".price", 3), (".product", 2)], 100⟩)]
          "https://shop.example" ⟨[(".price", 0), (".product", 5)], 120⟩ 7).1.countP
        (fun c => c.changeType == "structure" && c.description == structDesc ".price")) =
      (if (⟨[(".price", 0), (".product", 5)], 120⟩ : CheckSnapshot).selectorMatches.lookup
            ".price" = some 0 ∧
          0 < jsGetOr0 (⟨[(".price", 3), (".product", 2)], 100⟩ :
            CheckSnapshot).selectorMatches ".price" then 1 else 0) ∧
    (∀ c ∈ (detectChanges [("https://shop.example", ⟨[(".price", 3), (".product", 2)], 100⟩)]
          "https://shop.example" ⟨[(".price", 0), (".product", 5)], 120⟩ 7).1,
        c.severity = "warning")) :=
  ⟨⟨by decide, by decide⟩,
    detect_changes_structural _ "https://shop.example" _ 7 _ ".price" (by decide) (by decide)⟩

/-- C7 counterexample: a current response time of 250ms against a stored
baseline of 100ms DOES produce a performance record (250 > 2·100), so the
claim that no record is produced at this input is false. -/
theorem perf_250_vs_100_counterexample :
    (detectChanges [("https://example.com", ⟨[], 100⟩)] "https://example.com"
        ⟨[], 250⟩ 7).1 =
      [⟨"https://example.com", 7, "performance", "warning", "Response time doubled",
        100, 250⟩] := by
  decide

/-- C7 (amended): with a stored baseline, `detectChanges` emits exactly
one performance record iff the current response time strictly exceeds
double the baseline's — in particular 250ms against a 100ms baseline
yields one record, since 250 > 200. -/
theorem detect_changes_perf (baselines : List (String × CheckSnapshot)) (url : String)
    (current : CheckSnapshot) (now : Nat) (b : CheckSnapshot)
    (hb : baselines.lookup url = some b) :
    ((detectChanges baselines url current now).1.countP
        (fun c => c.changeType == "performance")) =
      (if b.responseTime * 2 < current.responseTime then 1 else 0) := by
  simp only [detectChanges, hb]
  rw [List.countP_append]
  have hstruct : (current.selectorMatches.filterMap (fun sc =>
      if sc.2 = 0 ∧ 0 < jsGetOr0 b.selectorMatches sc.1 then
        some (⟨url, now, "structure", "warning", structDesc sc.1,
          jsGetOr0 b.selectorMatches sc.1, sc.2⟩ : ChangeRecord)
      else none)).countP (fun c => c.changeType == "performance") = 0 := by
    rw [List.countP_eq_zero]
    intro c hc
    obtain ⟨sc, _, hf⟩ := List.mem_filterMap.mp hc
    by_cases hcond : sc.2 = 0 ∧ 0 < jsGetOr0 b.selectorMatches sc.1
    · rw [if_pos hcond, Option.some.injEq] at hf
      subst hf
      simp
    · rw [if_neg hcond] at hf
      exact absurd hf (by simp)
  rw [hstruct, Nat.zero_add]
  split <;> simp

/-- C7 witness: the amended theorem at the 250ms-vs-100ms input. -/
theorem detect_changes_perf_witness :
    ([("https://example.com", (⟨[], 100⟩ : CheckSnapshot))].lookup "https://example.com" =
        some (⟨[], 100⟩ : CheckSnapshot)) ∧
    ((detectChanges [("https://example.com", ⟨[], 100⟩)] "https://example.com"
        ⟨[], 250⟩ 9).1.countP (fun c => c.changeType == "performance")) =
      (if (⟨[], 100⟩ : CheckSnapshot).responseTime * 2 <
          (⟨[], 250⟩ : CheckSnapshot).responseTime then 1 else 0) :=
  ⟨by decide, detect_changes_perf _ "https://example.com" _ 9 _ (by decide)⟩

/-! ## Alerting System (`AlertingSystem`) -/

/-- The payloads the monitor attaches to the events it emits. -/
inductive EventData where
  | health (url status : String) (responseTime : Nat) (issuesLen : Nat)
  | change (url changeType description : String)
  | custom (message : String)
deriving DecidableEq

/-- An event handed to `AlertingSystem.processEvent`. -/
structure AlertEvent where
  type : String
  source : String
  timestamp : Nat
  data : EventData
deriving DecidableEq

/-- An alert rule (`condition` and the optional `message` formatter are
functions; `throttle` is the optional per-rule window in minutes). -/
structure AlertRule where
  name : String
  condition : AlertEvent → Bool
  severity : String
  channels : List String
  throttle : Option Nat
  message : Option (AlertEvent → String)

/-- An alert as synthesized by `createAndSendAlert`. -/
structure Alert where
  id : String
  rule : String
  severity : String
  timestamp : Nat
  message : String
  channels : List String
  delivered : Bool
  deliveryResults : List (String × Bool)
deriving DecidableEq

/-- The channels `deliverAlert`'s switch knows; an unknown channel gets no
`deliveryResults` entry at all. -/
def knownChannels : List String := ["console", "slack", "email", "webhook"]

/-- Per-channel delivery record.  In the source every known channel's
sender returns normally (the catch branch is unreachable), so each known
channel delivers. -/
def deliveryResultsFor (channels : List String) : List (String × Bool) :=
  channels.filterMap (fun c => if c ∈ knownChannels then some (c, true) else none)

/-- `AlertingSystem.generateDefaultMessage` (the payload-shape fallbacks
cannot trigger on events the monitor emits). -/
def generateDefaultMessage (ruleName : String) (ev : AlertEvent) : String :=
  if ev.type = "health-check" then
    match ev.data with
    | EventData.health url status rt il =>
      "Health check " ++ status ++ " for " ++ url ++ ". Response time: " ++
        toString rt ++ "ms. Issues: " ++ toString il
    | _ => "Alert triggered: " ++ ruleName
  else if ev.type = "environment-change" then
    match ev.data with
    | EventData.change url ct desc =>
      ct ++ " change detected on " ++ url ++ ": " ++ desc
    | _ => "Alert triggered: " ++ ruleName
  else "Alert triggered: " ++ ruleName

/-- `rule.message ? rule.message(event) : generateDefaultMessage(...)`. -/
def alertMessage (rule : AlertRule) (ev : AlertEvent) : String :=
  match rule.message with
  | some f => f ev
  | none => generateDefaultMessage rule.name ev

/-- The alerting config after constructor defaulting
(`throttleMinutes: config.throttleMinutes || 5`). -/
structure AlertingConfig where
  throttleMinutes : Nat
  rules : List AlertRule

/-- `new AlertingSystem(config)`'s config normalization. -/
def mkAlertingConfig (throttleMinutes : Option Nat) (rules : List AlertRule) :
    AlertingConfig :=
  ⟨jsOrNat throttleMinutes 5, rules⟩

/-- The mutable state of an `AlertingSystem` instance. -/
structure AlertingState where
  lastAlerts : List (String × Nat)
  alertHistory : List Alert
  alertCounter : Nat
deriving DecidableEq

/-- `AlertingSystem.isThrottled` (`rule.throttle || this.config.throttleMinutes`,
times in ms). -/
def isThrottled (cfg : AlertingConfig) (st : AlertingState) (rule : AlertRule)
    (now : Nat) : Bool :=
  match st.lastAlerts.lookup rule.name with
  | none => false
  | some last => decide (now - last < jsOrNat rule.throttle cfg.throttleMinutes * 60 * 1000)

/-- JS `Map.prototype.set`: replace in place, or append when absent. -/
def setAssoc (m : List (String × Nat)) (k : String) (v : Nat) : List (String × Nat) :=
  if (m.lookup k).isSome then m.map (fun p => if p.1 = k then (k, v) else p)
  else m ++ [(k, v)]

/-- `AlertingSystem.createAndSendAlert`: the synthesized alert (counter
already incremented). -/
def createAlert (rule : AlertRule) (ev : AlertEvent) (counter : Nat) (now : Nat) : Alert :=
  { id := "alert_" ++ toString counter ++ "_" ++ toString now,
    rule := rule.name, severity := rule.severity, timestamp := now,
    message := alertMessage rule ev, channels := rule.channels,
    delivered := (deliveryResultsFor rule.channels).any (fun p => p.2),
    deliveryResults := deliveryResultsFor rule.channels }

/-- The rule loop of `AlertingSystem.processEvent`: skip a rule whose
condition fails or that is throttled; otherwise create/send/append the
alert and update the rule's last-fired timestamp. -/
def processRules (cfg : AlertingConfig) (ev : AlertEvent) (now : Nat) :
    List AlertRule → AlertingState → List Alert × AlertingState
  | [], st => ([], st)
  | rule :: rest, st =>
    if rule.condition ev then
      if isThrottled cfg st rule now then processRules cfg ev now rest st
      else
        let counter := st.alertCounter + 1
        let alert := createAlert rule ev counter now
        let st' : AlertingState :=
          { lastAlerts := setAssoc st.lastAlerts rule.name now,
            alertHistory := st.alertHistory ++ [alert],
            alertCounter := counter }
        let r := processRules cfg ev now rest st'
        (alert :: r.1, r.2)
    else processRules cfg ev now rest st

/-- `AlertingSystem.processEvent` at time `now`. -/
def processEvent (cfg : AlertingConfig) (ev : AlertEvent) (now : Nat)
    (st : AlertingState) : List Alert × AlertingState :=
  processRules cfg ev now cfg.rules st

/-- A rule with a deliverable channel produces a delivered alert. -/
theorem deliveryResultsFor_any {channels : List String}
    (h : ∃ c ∈ channels, c ∈ knownChannels) :
    (deliveryResultsFor channels).any (fun p => p.2) = true := by
  obtain ⟨c, hc, hk⟩ := h
  rw [List.any_eq_true]
  refine ⟨(c, true), ?_, rfl⟩
  rw [deliveryResultsFor, List.mem_filterMap]
  exact ⟨c, hc, by rw [if_pos hk]⟩

/-- C5: for a single-rule system, two matching events less than the
rule's throttle window apart yield exactly one alert — created, delivered
(given a deliverable channel), appended to history — the second evaluation
changing nothing at all; a matching event at or after the window's end
since the first alert yields a second history entry. -/
theorem alert_throttle_window (topt : Option Nat) (r : AlertRule)
    (e1 e2 e3 : AlertEvent) (t1 t2 t3 : Nat)
    (hc1 : r.condition e1 = true) (hc2 : r.condition e2 = true) (hc3 : r.condition e3 = true)
    (hch : ∃ c ∈ r.channels, c ∈ knownChannels)
    (hlt : t2 - t1 < jsOrNat r.throttle (jsOrNat topt 5) * 60 * 1000)
    (hge : t1 + jsOrNat r.throttle (jsOrNat topt 5) * 60 * 1000 ≤ t3) :
    ((processEvent (mkAlertingConfig topt [r]) e1 t1 ⟨[], [], 0⟩).2.alertHistory.length = 1 ∧
      ∀ a ∈ (processEvent (mkAlertingConfig topt [r]) e1 t1 ⟨[], [], 0⟩).2.alertHistory,
        a.rule = r.name ∧ a.delivered = true) ∧
    ((processEvent (mkAlertingConfig topt [r]) e2 t2
        (processEvent (mkAlertingConfig topt [r]) e1 t1 ⟨[], [], 0⟩).2).1 = [] ∧
      (processEvent (mkAlertingConfig topt [r]) e2 t2
        (processEvent (mkAlertingConfig topt [r]) e1 t1 ⟨[], [], 0⟩).2).2 =
        (processEvent (mkAlertingConfig topt [r]) e1 t1 ⟨[], [], 0⟩).2) ∧
    ((processEvent (mkAlertingConfig topt [r]) e3 t3
        (processEvent (mkAlertingConfig topt [r]) e2 t2
          (processEvent (mkAlertingConfig topt [r]) e1 t1 ⟨[], [], 0⟩).2).2).2.alertHistory.length
      = 2) := by
  have h1 : processEvent (mkAlertingConfig topt [r]) e1 t1 ⟨[], [], 0⟩ =
      ([createAlert r e1 1 t1],
        ⟨[(r.name, t1)], [createAlert r e1 1 t1], 1⟩) := by
    simp [processEvent, processRules, hc1, isThrottled, setAssoc, mkAlertingConfig]
  have hlook : List.lookup r.name [(r.name, t1)] = some t1 := by
    simp [List.lookup]
  have hthr2 : isThrottled ⟨jsOrNat topt 5, [r]⟩
      ⟨[(r.name, t1)], [createAlert r e1 1 t1], 1⟩ r t2 = true := by
    unfold isThrottled
    simp only [hlook, decide_eq_true_eq]
    exact hlt
  have h2 : processEvent (mkAlertingConfig topt [r]) e2 t2
      (⟨[(r.name, t1)], [createAlert r e1 1 t1], 1⟩ : AlertingState) =
      ([], ⟨[(r.name, t1)], [createAlert r e1 1 t1], 1⟩) := by
    simp [processEvent, processRules, hc2, hthr2, mkAlertingConfig]
  have hthr3 : isThrottled ⟨jsOrNat topt 5, [r]⟩
      ⟨[(r.name, t1)], [createAlert r e1 1 t1], 1⟩ r t3 = false := by
    unfold isThrottled
    simp only [hlook, decide_eq_false_iff_not]
    omega
  have h3 : processEvent (mkAlertingConfig topt [r]) e3 t3
      (⟨[(r.name, t1)], [createAlert r e1 1 t1], 1⟩ : AlertingState) =
      ([createAlert r e3 2 t3],
        ⟨[(r.name, t3)], [createAlert r e1 1 t1, createAlert r e3 2 t3], 2⟩) := by
    simp [processEvent, processRules, hc3, hthr3, setAssoc, mkAlertingConfig]
  refine ⟨?_, ?_, ?_⟩
  · rw [h1]
    refine ⟨rfl, ?_⟩
    intro a ha
    simp only [List.mem_singleton] at ha
    subst ha
    exact ⟨rfl, deliveryResultsFor_any hch⟩
  · rw [h1, h2]
    exact ⟨rfl, rfl⟩
  · rw [h1, h2, h3]
    rfl

/-- A concrete structure-change alert rule used by the C5 witness. -/
def sampleRule : AlertRule :=
  { name := "Structure Change",
    condition := fun ev => ev.type == "environment-change",
    severity := "warning", channels := ["console", "slack"],
    throttle := none, message := none }

/-- A concrete environment-change event at time `t`. -/
def sampleChangeEvent (t : Nat) : AlertEvent :=
  ⟨"environment-change", "https://example.com", t,
    EventData.change "https://example.com" "structure" "Selector no longer found"⟩

/-- C5 witness: the throttle theorem with the default 5-minute window,
events at 1000ms and 2000ms (throttled) and at 301000ms (window over). -/
theorem alert_throttle_window_witness :
    (sampleRule.condition (sampleChangeEvent 1000) = true ∧
      (∃ c ∈ sampleRule.channels, c ∈ knownChannels) ∧
      2000 - 1000 < jsOrNat sampleRule.throttle (jsOrNat none 5) * 60 * 1000 ∧
      1000 + jsOrNat sampleRule.throttle (jsOrNat none 5) * 60 * 1000 ≤ 301000) ∧
    (((processEvent (mkAlertingConfig none [sampleRule]) (sampleChangeEvent 1000) 1000
          ⟨[], [], 0⟩).2.alertHistory.length = 1 ∧
        ∀ a ∈ (processEvent (mkAlertingConfig none [sampleRule]) (sampleChangeEvent 1000) 1000
            ⟨[], [], 0⟩).2.alertHistory,
          a.rule = sampleRule.name ∧ a.delivered = true) ∧
      ((processEvent (mkAlertingConfig none [sampleRule]) (sampleChangeEvent 2000) 2000
          (processEvent (mkAlertingConfig none [sampleRule]) (sampleChangeEvent 1000) 1000
            ⟨[], [], 0⟩).2).1 = [] ∧
        (processEvent (mkAlertingConfig none [sampleRule]) (sampleChangeEvent 2000) 2000
          (processEvent (mkAlertingConfig none [sampleRule]) (sampleChangeEvent 1000) 1000
            ⟨[], [], 0⟩).2).2 =
          (processEvent (mkAlertingConfig none [sampleRule]) (sampleChangeEvent 1000) 1000
            ⟨[], [], 0⟩).2) ∧
      ((processEvent (mkAlertingConfig none [sampleRule]) (sampleChangeEvent 301000) 301000
          (processEvent (mkAlertingConfig none [sampleRule]) (sampleChangeEvent 2000) 2000
            (processEvent (mkAlertingConfig none [sampleRule]) (sampleChangeEvent 1000) 1000
              ⟨[], [], 0⟩).2).2).2.alertHistory.length = 2)) :=
  ⟨⟨by decide, by decide, by decide, by decide⟩,
    alert_throttle_window none sampleRule (sampleChangeEvent 1000) (sampleChangeEvent 2000)
      (sampleChangeEvent 301000) 1000 2000 301000 (by decide) (by decide) (by decide)
      (by decide) (by decide) (by decide)⟩

end WebExec
